import Mathlib

/-!
Verification of the tf.data-service client coordination layer
(`tensorflow/python/data/experimental/ops/data_service_ops.py`).

Python strings are modelled as `List Char`; Python `None`-able parameters as
`Option`; a raised Python exception as the `.error` case of `Except PyError`.
Machine behaviour that matters here is purely string/option manipulation and
control flow, so the embedding is executable throughout.
-/

/-- Python exceptions raised by the module: `ValueError msg` models
`raise ValueError(...)`; `unboundLocalVariantTensor` models the
`UnboundLocalError` raised when a function body reads a local variable
(here `variant_tensor`) before its first assignment. -/
inductive PyError
  | valueError (msg : List Char)
  | unboundLocalVariantTensor
deriving DecidableEq, Repr

/-- A Python value passed where a string is expected: either an actual
string or a value of some other type (for `isinstance` checks). -/
inductive PyVal
  | str (s : List Char)
  | nonstr
deriving DecidableEq, Repr

/-- The characters of the separator `"://"` used by `_parse_service`. -/
def sepChars : List Char := [':', '/', '/']

/-- Does the list start with the separator `"://"`? -/
def sepAt (s : List Char) : Bool :=
  match s with
  | a :: b :: c :: _ => a == ':' && b == '/' && c == '/'
  | _ => false

/-- Find the first (leftmost) occurrence of `"://"` in `s`, returning the
part before it and the part after it, as Python's `str.split` scanning
does. -/
def findSplit : List Char → Option (List Char × List Char)
  | [] => none
  | c :: rest =>
    if sepAt (c :: rest) then some ([], rest.drop 2)
    else
      match findSplit rest with
      | some (pre, post) => some (c :: pre, post)
      | none => none

/-- Fuel-indexed model of Python's `s.split("://")`: repeatedly strip the
leftmost occurrence of the separator.  Any fuel at least the length of `s`
gives the true answer; `pySplit` below instantiates it. -/
def pySplitFuel : Nat → List Char → List (List Char)
  | 0, s => [s]
  | f + 1, s =>
    match findSplit s with
    | none => [s]
    | some (pre, post) => pre :: pySplitFuel f post

/-- Model of Python's `s.split("://")`. -/
def pySplit (s : List Char) : List (List Char) := pySplitFuel s.length s

/-- Fuel-indexed count of non-overlapping left-to-right occurrences of
`"://"` in `s` (Python's `s.count("://")`). -/
def countOccFuel : Nat → List Char → Nat
  | 0, _ => 0
  | f + 1, s =>
    match findSplit s with
    | none => 0
    | some (_, post) => countOccFuel f post + 1

/-- Count of non-overlapping occurrences of `"://"` in `s`. -/
def countOcc (s : List Char) : Nat := countOccFuel s.length s

/-- Embedding of `_parse_service` (data_service_ops.py lines 243-269).
The process-wide default protocol returned by the external
`_pywrap_utils.TF_DATA_DefaultProtocol()` is passed in as the explicit
parameter `dp`; the claims do not depend on its value. -/
def parse_service (dp : List Char) : PyVal → Except PyError (List Char × List Char)
  | .nonstr => .error (.valueError ("service must be a string".data))
  | .str s =>
    if s = [] then .error (.valueError ("service must not be empty".data))
    else
      match pySplit s with
      | [protocol, address] => .ok (protocol, address)
      | [address] => .ok (dp, address)
      | _ => .error (.valueError ("malformed service string has multiple separators".data))

/-- The substring relation on character lists: `occursIn needle hay` holds
when `needle` appears contiguously inside `hay`. -/
def occursIn (needle hay : List Char) : Prop :=
  ∃ s t, hay = s ++ needle ++ t

/-- An ASCII single-quote character, written by code point to keep the
formatted Python list repr faithful. -/
def squote : Char := Char.ofNat 39

namespace ProcessingMode

/-- `ProcessingMode.PARALLEL_EPOCHS` (line 45). -/
def PARALLEL_EPOCHS : List Char := "parallel_epochs".data

/-- `ProcessingMode.DISTRIBUTED_EPOCH` (line 46). -/
def DISTRIBUTED_EPOCH : List Char := "distributed_epoch".data

/-- Python's `str` rendering of the list `valid_modes`, i.e.
a bracketed, comma separated list of the two quoted mode names, as
interpolated into the error message by `format`. -/
def validModesRepr : List Char :=
  '[' :: squote :: PARALLEL_EPOCHS ++ squote :: ',' :: ' ' :: squote ::
    DISTRIBUTED_EPOCH ++ [squote, ']']

/-- Embedding of `ProcessingMode.validate` (lines 48-57): accepts the two
mode strings, otherwise raises a ValueError whose message interpolates the
offending mode and the list of valid modes. -/
def validate (mode : List Char) : Except PyError Unit :=
  if mode = PARALLEL_EPOCHS ∨ mode = DISTRIBUTED_EPOCH then .ok ()
  else .error (.valueError
    (mode ++ " is not a valid processing mode. Valid modes: ".data ++ validModesRepr))

end ProcessingMode

/-- `COMPRESSION_AUTO` (line 38).  `COMPRESSION_NONE` (line 39) is Python
`None` and is modelled by `Option.none`: the `compression` argument is an
`Option (List Char)`. -/
def cAUTO : List Char := "AUTO".data

/-- Message template of the invalid-compression ValueError raised at
lines 343-346 (and again in `_register_dataset` and `_from_dataset_id`). -/
def invalidCompressionMsg : List Char :=
  "Invalid compression argument. Must be one of the valid compressions".data

/-- Embedding of the compression validation and resolution performed by
`_distribute` (lines 342-348): reject a compression other than "AUTO" or
None, then downgrade "AUTO" to None when a data-transfer protocol is
given. -/
def resolveCompression (compression data_transfer_protocol : Option (List Char)) :
    Except PyError (Option (List Char)) :=
  if ¬ (compression = some cAUTO ∨ compression = none) then
    .error (.valueError invalidCompressionMsg)
  else if compression = some cAUTO ∧ data_transfer_protocol ≠ none then
    .ok none
  else
    .ok compression

/-- Abstract syntax of the dataset pipelines the module builds: the raw
user dataset, the `map`/`prefetch`/debug-options wrappers added by
`_register_dataset`, the data-service reader source built by
`_DataServiceDatasetV2`, and the uncompress map and auto-shard-OFF options
added by `_from_dataset_id`. -/
inductive Pipeline
  | source (id : Nat)
  | mapCompress (p : Pipeline)
  | mapIdentity (p : Pipeline)
  | mapUncompress (p : Pipeline)
  | prefetch (p : Pipeline)
  | applyDebugOptions (p : Pipeline)
  | dataService (dataset_id : Int) (processing_mode address protocol : List Char)
  | withOptionsAutoShardOff (p : Pipeline)
deriving DecidableEq, Repr

/-- An element spec: either the scalar-variant spec substituted when
compression is "AUTO", or a user-provided spec. -/
inductive Spec
  | variantScalar
  | user (id : Nat)
deriving DecidableEq, Repr

/-- The `service` argument: either a pre-split (protocol, address) tuple
or a raw value to be parsed by `_parse_service`. -/
inductive Service
  | pair (protocol address : List Char)
  | single (v : PyVal)
deriving DecidableEq, Repr

/-- The `isinstance(service, tuple)` dispatch shared by
`_register_dataset` (lines 641-644) and `_from_dataset_id`
(lines 808-811). -/
def parseServiceArg (dp : List Char) : Service → Except PyError (List Char × List Char)
  | .pair protocol address => .ok (protocol, address)
  | .single v => parse_service dp v

/-- Arguments of `_DataServiceDatasetV2.__init__` (lines 74-87), in source
order. -/
structure InitArgs where
  dataset_id : Int
  processing_mode : List Char
  address : List Char
  element_spec : Spec
  protocol : List Char
  data_transfer_protocol : Option (List Char)
  job_name : Option (List Char)
  consumer_index : Option Int
  num_consumers : Option Int
  max_outstanding_requests : Option Int
  max_request_pipelining_per_worker : Int
  task_refresh_interval_hint_ms : Option Int
  target_workers : List Char
deriving DecidableEq, Repr

/-- The condition of line 139,
`consumer_index is None != num_consumers is None`.  Python parses this as
the chained comparison
`(consumer_index is None) and (None != num_consumers) and (num_consumers is None)`
(`is` and `!=` have equal precedence and chain); `None != num_consumers`
is true exactly when `num_consumers` is not None. -/
def consumerPairChainCond (ci nc : Option Int) : Bool :=
  decide (ci = none) && decide (nc ≠ none) && decide (nc = none)

/-- Message of the (unreachable) ValueError at lines 140-143. -/
def consumerPairMsg : List Char :=
  "Must either set both consumer_index and num_consumers, or neither.".data

/-- Message of the ValueError at line 145. -/
def jobNameRequiredMsg : List Char :=
  "job_name must be set when setting num_consumers".data

/-- Embedding of `_DataServiceDatasetV2.__init__` (lines 139-203): the two
validation checks, then the parameter defaulting and tensor conversions
(lines 147-187, pure bookkeeping with no observable effect), and then
line 189, which passes the local variable `variant_tensor` to the
superclass initializer before that variable's only assignment (line 190) —
so execution that reaches line 189 raises `UnboundLocalError`. -/
def dataServiceDatasetV2Init (a : InitArgs) : Except PyError Pipeline :=
  if consumerPairChainCond a.consumer_index a.num_consumers then
    .error (.valueError consumerPairMsg)
  else if a.num_consumers ≠ none ∧ a.job_name = none then
    .error (.valueError jobNameRequiredMsg)
  else
    .error .unboundLocalVariantTensor

/-- Embedding of `_register_dataset` (lines 616-670).  The compression
argument is validated, the service argument parsed, then the dataset is
wrapped: a compress map when compression is "AUTO", an identity map
otherwise (the EASL first-map marker), followed by a prefetch and the
debug-options application.  The registration RPC itself
(`gen_experimental_dataset_ops.register_dataset`, lines 664-668) is an
external collaborator; the model returns the pipeline handed to it. -/
def registerDatasetInternal (dp : List Char) (service : Service) (dataset : Pipeline)
    (compression : Option (List Char)) : Except PyError Pipeline :=
  if ¬ (compression = some cAUTO ∨ compression = none) then
    .error (.valueError invalidCompressionMsg)
  else
    match parseServiceArg dp service with
    | .error e => .error e
    | .ok _ =>
      let d1 := if compression = some cAUTO then Pipeline.mapCompress dataset
                else Pipeline.mapIdentity dataset
      .ok (Pipeline.applyDebugOptions (Pipeline.prefetch d1))

/-- Embedding of the public `register_dataset` (lines 673-715): delegates
to `_register_dataset` with compression fixed to "AUTO". -/
def registerDatasetPublic (dp : List Char) (service : Service) (dataset : Pipeline) :
    Except PyError Pipeline :=
  registerDatasetInternal dp service dataset (some cAUTO)

/-- Embedding of `_check_job_name` (lines 60-68); in this typed model the
job name is always a string when present, so only the emptiness check can
fire. -/
def checkJobName : Option (List Char) → Except PyError Unit
  | none => .ok ()
  | some j =>
    if j = [] then .error (.valueError ("job_name must not be empty".data))
    else .ok ()

/-- Embedding of `_from_dataset_id` (lines 718-842): validate the
processing mode, the compression value, the job-name type (always a string
here), and the element spec; parse the service; substitute the
scalar-variant element spec when compression is "AUTO"; construct the
`_DataServiceDataset` (which is where line 189's unbound-local failure
fires); then — in code made unreachable by that failure — insert the
uncompress map when compression is "AUTO" and disable autosharding when a
job name is given. -/
def fromDatasetIdInternal (dp processing_mode : List Char) (service : Service)
    (dataset_id : Int) (element_spec : Option Spec) (job_name : Option (List Char))
    (consumer_index num_consumers : Option Int) (max_outstanding_requests : Option Int)
    (max_request_pipelining_per_worker : Int) (task_refresh_interval_hint_ms : Option Int)
    (data_transfer_protocol : Option (List Char)) (compression : Option (List Char))
    (target_workers : List Char) : Except PyError Pipeline :=
  match ProcessingMode.validate processing_mode with
  | .error e => .error e
  | .ok _ =>
    if ¬ (compression = some cAUTO ∨ compression = none) then
      .error (.valueError invalidCompressionMsg)
    else
      match element_spec with
      | none => .error (.valueError ("element_spec must not be None".data))
      | some espec =>
        match parseServiceArg dp service with
        | .error e => .error e
        | .ok pa =>
          let dsspec := if compression = some cAUTO then Spec.variantScalar else espec
          match dataServiceDatasetV2Init (InitArgs.mk dataset_id processing_mode pa.2
              dsspec pa.1 data_transfer_protocol job_name consumer_index num_consumers
              max_outstanding_requests max_request_pipelining_per_worker
              task_refresh_interval_hint_ms target_workers) with
          | .error e => .error e
          | .ok base =>
            let d1 := if compression = some cAUTO then Pipeline.mapUncompress base
                      else base
            let d2 := if job_name ≠ none then Pipeline.withOptionsAutoShardOff d1
                      else d1
            .ok d2

/-- Fuel-indexed decimal rendering of a natural number, most significant
digit first; any fuel above the number suffices and `natDec` instantiates
it.  Models the digits of TensorFlow's `string_ops.as_string`. -/
def natDecFuel : Nat → Nat → List Char
  | 0, _ => []
  | f + 1, n =>
    if n < 10 then [Nat.digitChar n]
    else natDecFuel f (n / 10) ++ [Nat.digitChar (n % 10)]

/-- Decimal rendering of a natural number. -/
def natDec (n : Nat) : List Char := natDecFuel (n + 1) n

/-- Decimal rendering of an integer (leading minus sign when negative).
Modelled from the spec: `string_ops.as_string` is an external TensorFlow
op; the spec's derived-name examples show the dataset id rendered in
decimal. -/
def intDec (i : Int) : List Char :=
  if i < 0 then '-' :: natDec i.natAbs else natDec i.natAbs

/-- Modelled from the spec: `string_ops.string_join(parts, sep)` is an
external TensorFlow op joining the parts with the separator between
consecutive parts. -/
def stringJoin : List (List Char) → List Char → List Char
  | [], _ => []
  | [x], _ => x
  | x :: xs, sep => x ++ sep ++ stringJoin xs sep

/-- The effective job name derived by the public `from_dataset_id`
(lines 951-953): `string_join(["dataset_id=", as_string(dataset_id),
job_name], "/")`. -/
def deriveJobName (dataset_id : Int) (job_name : List Char) : List Char :=
  stringJoin ["dataset_id=".data, intDec dataset_id, job_name] "/".data

/-- Embedding of the public `from_dataset_id` (lines 845-966): validates
the job name, namespaces it with the dataset id, and delegates to
`_from_dataset_id` with the default compression "AUTO" (the public
signature exposes no compression parameter). -/
def fromDatasetIdPublic (dp processing_mode : List Char) (service : Service)
    (dataset_id : Int) (element_spec : Option Spec) (job_name : Option (List Char))
    (consumer_index num_consumers : Option Int) (max_outstanding_requests : Option Int)
    (max_request_pipelining_per_worker : Int) (data_transfer_protocol : Option (List Char))
    (target_workers : List Char) : Except PyError Pipeline :=
  match checkJobName job_name with
  | .error e => .error e
  | .ok _ =>
    fromDatasetIdInternal dp processing_mode service dataset_id element_spec
      (job_name.map (deriveJobName dataset_id)) consumer_index num_consumers
      max_outstanding_requests max_request_pipelining_per_worker none
      data_transfer_protocol (some cAUTO) target_workers

/-- Embedding of `_distribute` (lines 272-366) applied to a dataset:
validate the processing mode, validate and resolve the compression once,
then register the dataset with the resolved value and build the reader
with the same resolved value.  `dataset_id` stands for the id the external
registration RPC returns.  The result records the resolved compression,
the registered pipeline, and the reader-construction outcome. -/
def distributeApply (dp processing_mode : List Char) (service : Service)
    (job_name : Option (List Char)) (consumer_index num_consumers : Option Int)
    (max_outstanding_requests : Option Int) (max_request_pipelining_per_worker : Int)
    (task_refresh_interval_hint_ms : Option Int)
    (data_transfer_protocol : Option (List Char)) (compression : Option (List Char))
    (target_workers : List Char) (dataset : Pipeline) (element_spec : Spec)
    (dataset_id : Int) :
    Except PyError (Option (List Char) × Pipeline × Except PyError Pipeline) :=
  match ProcessingMode.validate processing_mode with
  | .error e => .error e
  | .ok _ =>
    match resolveCompression compression data_transfer_protocol with
    | .error e => .error e
    | .ok resolved =>
      match registerDatasetInternal dp service dataset resolved with
      | .error e => .error e
      | .ok registered =>
        .ok (resolved, registered,
          fromDatasetIdInternal dp processing_mode service dataset_id
            (some element_spec) job_name consumer_index num_consumers
            max_outstanding_requests max_request_pipelining_per_worker
            task_refresh_interval_hint_ms data_transfer_protocol resolved
            target_workers)

/-- Decode a decimal digit string back to the number it denotes (digits
are ASCII, code 48 upward). -/
def decodeDec (l : List Char) : Nat :=
  l.foldl (fun acc c => acc * 10 + (c.toNat - 48)) 0

lemma sepAt_true {s : List Char} (h : sepAt s = true) :
    ∃ t, s = ':' :: '/' :: '/' :: t := by
  match s with
  | [] => simp [sepAt] at h
  | [a] => simp [sepAt] at h
  | [a, b] => simp [sepAt] at h
  | a :: b :: c :: t =>
    simp only [sepAt, Bool.and_eq_true, beq_iff_eq] at h
    obtain ⟨⟨h1, h2⟩, h3⟩ := h
    subst h1; subst h2; subst h3
    exact ⟨t, rfl⟩

lemma findSplit_eq {s pre post : List Char}
    (h : findSplit s = some (pre, post)) :
    s = pre ++ ':' :: '/' :: '/' :: post := by
  induction s generalizing pre post with
  | nil => simp [findSplit] at h
  | cons c rest ih =>
    by_cases hsep : sepAt (c :: rest) = true
    · obtain ⟨t, ht⟩ := sepAt_true hsep
      rw [findSplit, if_pos hsep] at h
      injection ht with hc hrest
      subst hc; subst hrest
      simp only [List.drop_succ_cons, List.drop_zero, Option.some.injEq,
        Prod.mk.injEq] at h
      obtain ⟨h1, h2⟩ := h
      subst h1; subst h2
      rfl
    · rw [findSplit, if_neg hsep] at h
      cases hr : findSplit rest with
      | none => rw [hr] at h; simp at h
      | some pq =>
        obtain ⟨p, q⟩ := pq
        rw [hr] at h
        simp only [Option.some.injEq, Prod.mk.injEq] at h
        obtain ⟨h1, h2⟩ := h
        subst h1; subst h2
        have := ih hr
        simp [this]

lemma findSplit_post_lt {s pre post : List Char}
    (h : findSplit s = some (pre, post)) : post.length < s.length := by
  have := findSplit_eq h
  subst this
  simp [List.length_append]
  omega

lemma pySplitFuel_length (f : Nat) :
    ∀ s : List Char, (pySplitFuel f s).length = countOccFuel f s + 1 := by
  induction f with
  | zero => intro s; simp [pySplitFuel, countOccFuel]
  | succ f ih =>
    intro s
    rw [pySplitFuel, countOccFuel]
    cases h : findSplit s with
    | none => simp
    | some pq =>
      obtain ⟨pre, post⟩ := pq
      simp [ih post]

lemma pySplitFuel_singleton {f : Nat} {s : List Char}
    (h : (pySplitFuel f s).length = 1) : pySplitFuel f s = [s] := by
  cases f with
  | zero => rfl
  | succ f =>
    rw [pySplitFuel] at h ⊢
    cases hfs : findSplit s with
    | none => rfl
    | some pq =>
      obtain ⟨pre, post⟩ := pq
      rw [hfs] at h
      simp only [List.length_cons] at h
      have := pySplitFuel_length f post
      omega

lemma countOcc_nil : countOcc [] = 0 := rfl

lemma countOcc_ne_nil {s : List Char} (h : countOcc s ≠ 0) : s ≠ [] := by
  intro hs; subst hs; exact h countOcc_nil

lemma pySplit_length (s : List Char) : (pySplit s).length = countOcc s + 1 :=
  pySplitFuel_length s.length s

lemma pySplit_of_countOcc_zero {s : List Char} (h : countOcc s = 0) :
    pySplit s = [s] := by
  apply pySplitFuel_singleton
  rw [pySplitFuel_length s.length s]
  exact congrArg (· + 1) h

lemma pySplit_of_countOcc_one {s : List Char} (h : countOcc s = 1) :
    ∃ pre post, pySplit s = [pre, post] ∧ s = pre ++ ':' :: '/' :: '/' :: post := by
  match s with
  | [] => simp [countOcc, countOccFuel] at h
  | c :: rest =>
    rw [countOcc, List.length_cons, countOccFuel] at h
    rw [pySplit, List.length_cons, pySplitFuel]
    cases hfs : findSplit (c :: rest) with
    | none => rw [hfs] at h; simp at h
    | some pq =>
      obtain ⟨pre, post⟩ := pq
      rw [hfs] at h
      simp only [Nat.add_right_cancel_iff] at h
      refine ⟨pre, post, ?_, findSplit_eq hfs⟩
      have hone : (pySplitFuel rest.length post).length = 1 := by
        rw [pySplitFuel_length rest.length post, h]
      show pre :: pySplitFuel rest.length post = [pre, post]
      rw [pySplitFuel_singleton hone]

/-- C2: for every service string, `_parse_service` returns the
(protocol, address) split at the separator when the string contains exactly
one occurrence of the separator, returns (defaultProtocol, wholeString)
when it contains zero occurrences, errors when it contains two or more
occurrences, and errors on the empty string and on non-string input. -/
theorem parse_service_spec (dp : List Char) :
    (∀ s, countOcc s = 1 →
      ∃ p a, parse_service dp (.str s) = .ok (p, a) ∧ s = p ++ ':' :: '/' :: '/' :: a)
  ∧ (∀ s, s ≠ [] → countOcc s = 0 → parse_service dp (.str s) = .ok (dp, s))
  ∧ (∀ s, 2 ≤ countOcc s → ∃ m, parse_service dp (.str s) = .error (.valueError m))
  ∧ (∃ m, parse_service dp (.str []) = .error (.valueError m))
  ∧ (∃ m, parse_service dp .nonstr = .error (.valueError m)) := by
  refine ⟨?_, ?_, ?_, ⟨_, rfl⟩, ⟨_, rfl⟩⟩
  · intro s h
    obtain ⟨pre, post, hps, hdec⟩ := pySplit_of_countOcc_one h
    have hs : s ≠ [] := countOcc_ne_nil (by omega)
    refine ⟨pre, post, ?_, hdec⟩
    simp only [parse_service, if_neg hs, hps]
  · intro s hs h
    simp only [parse_service, if_neg hs, pySplit_of_countOcc_zero h]
  · intro s h
    have hs : s ≠ [] := countOcc_ne_nil (by omega)
    have hlen := pySplit_length s
    match hps : pySplit s with
    | [] => rw [hps] at hlen; simp at hlen
    | [a] => rw [hps] at hlen; simp at hlen; omega
    | [a, b] => rw [hps] at hlen; simp at hlen; omega
    | a :: b :: c :: t =>
      exact ⟨"malformed service string has multiple separators".data, by
        simp only [parse_service, if_neg hs, hps]⟩

/-- Witness for C2 at the concrete inputs of the spec's testable
properties. -/
theorem parse_service_spec_witness :
    (∃ p a, parse_service "grpc".data (.str "grpc://host:5000".data) = .ok (p, a) ∧
        "grpc://host:5000".data = p ++ ':' :: '/' :: '/' :: a)
  ∧ parse_service "grpc".data (.str "host:5000".data) = .ok ("grpc".data, "host:5000".data)
  ∧ (∃ m, parse_service "grpc".data (.str "a://b://c".data) = .error (.valueError m)) :=
  ⟨(parse_service_spec "grpc".data).1 "grpc://host:5000".data (by decide),
   (parse_service_spec "grpc".data).2.1 "host:5000".data (by decide) (by decide),
   (parse_service_spec "grpc".data).2.2.1 "a://b://c".data (by decide)⟩

/-- C7: `ProcessingMode.validate` accepts exactly the strings
"parallel_epochs" and "distributed_epoch"; every other string is rejected
with an error message in which both valid values occur. -/
theorem processing_mode_validate_spec :
    ProcessingMode.validate ProcessingMode.PARALLEL_EPOCHS = .ok ()
  ∧ ProcessingMode.validate ProcessingMode.DISTRIBUTED_EPOCH = .ok ()
  ∧ ∀ mode, mode ≠ ProcessingMode.PARALLEL_EPOCHS →
      mode ≠ ProcessingMode.DISTRIBUTED_EPOCH →
      ∃ msg, ProcessingMode.validate mode = .error (.valueError msg) ∧
        occursIn ProcessingMode.PARALLEL_EPOCHS msg ∧
        occursIn ProcessingMode.DISTRIBUTED_EPOCH msg := by
  refine ⟨by simp [ProcessingMode.validate], by simp [ProcessingMode.validate], ?_⟩
  intro mode h1 h2
  refine ⟨mode ++ " is not a valid processing mode. Valid modes: ".data ++
      ProcessingMode.validModesRepr, ?_, ?_, ?_⟩
  · simp [ProcessingMode.validate, h1, h2]
  · refine ⟨mode ++ " is not a valid processing mode. Valid modes: ".data ++ ['[', squote],
      squote :: ',' :: ' ' :: squote :: ProcessingMode.DISTRIBUTED_EPOCH ++ [squote, ']'], ?_⟩
    simp [ProcessingMode.validModesRepr]
  · refine ⟨mode ++ " is not a valid processing mode. Valid modes: ".data ++
      '[' :: squote :: ProcessingMode.PARALLEL_EPOCHS ++ [squote, ',', ' ', squote],
      [squote, ']'], ?_⟩
    simp [ProcessingMode.validModesRepr]

/-- Witness for C7: an invalid mode string is rejected with a message
naming both valid modes. -/
theorem processing_mode_validate_spec_witness :
    ∃ msg, ProcessingMode.validate "bogus".data = .error (.valueError msg) ∧
      occursIn ProcessingMode.PARALLEL_EPOCHS msg ∧
      occursIn ProcessingMode.DISTRIBUTED_EPOCH msg :=
  processing_mode_validate_spec.2.2 "bogus".data (by decide) (by decide)

/-- C5: compression resolution in `_distribute`: "AUTO" with a non-None
data-transfer protocol resolves to None; "AUTO" with no transfer-protocol
override stays "AUTO"; None stays None for every transfer protocol. -/
theorem resolve_compression_spec :
    (∀ p, resolveCompression (some cAUTO) (some p) = .ok none)
  ∧ resolveCompression (some cAUTO) none = .ok (some cAUTO)
  ∧ (∀ d, resolveCompression none d = .ok none) := by
  refine ⟨fun p => ?_, ?_, fun d => ?_⟩
  · simp [resolveCompression]
  · simp [resolveCompression]
  · simp [resolveCompression, cAUTO]

lemma consumerPairChainCond_false (ci nc : Option Int) :
    consumerPairChainCond ci nc = false := by
  cases nc <;> simp [consumerPairChainCond]

/-- C1 (divergence): the coupling check at line 139 parses as a chained
comparison that is always false, so it never raises; a spec with exactly
one of consumer_index/num_consumers set (here consumer_index=0,
num_consumers=None, job_name=None) sails past both validation checks and
fails only with the unrelated unbound-local error, not with the
configuration ValueError the claim requires. -/
theorem consumer_pair_check_never_fires :
    (∀ ci nc : Option Int, consumerPairChainCond ci nc = false)
  ∧ dataServiceDatasetV2Init
      (InitArgs.mk 1 "parallel_epochs".data "host:5000".data (Spec.user 0) "grpc".data
        none none (some 0) none none 1 none "AUTO".data)
      = .error .unboundLocalVariantTensor :=
  ⟨consumerPairChainCond_false, rfl⟩

/-- C3: every argument tuple that passes the validation checks of
`_DataServiceDatasetV2.__init__` still never completes construction:
line 189 passes the local `variant_tensor` to the superclass initializer
before its only assignment at line 190, so construction raises an
unbound-local error. -/
theorem data_service_dataset_init_unbound_local (a : InitArgs)
    (h : a.num_consumers ≠ none → a.job_name ≠ none) :
    dataServiceDatasetV2Init a = .error .unboundLocalVariantTensor := by
  have hcond : ¬ (a.num_consumers ≠ none ∧ a.job_name = none) := by
    rintro ⟨h1, h2⟩; exact (h h1) h2
  simp [dataServiceDatasetV2Init, consumerPairChainCond_false, hcond]

/-- Witness for C3: a fully valid argument tuple (both consumer fields and
a job name set) still raises the unbound-local error. -/
theorem data_service_dataset_init_unbound_local_witness :
    dataServiceDatasetV2Init (InitArgs.mk 1 "parallel_epochs".data "host:5000".data
      (Spec.user 0) "grpc".data none (some "job".data) (some 0) (some 2) none 1 none
      "AUTO".data) = .error .unboundLocalVariantTensor :=
  data_service_dataset_init_unbound_local _ (by simp)

/-- C8: when num_consumers is set and job_name is absent, construction
raises the ValueError stating that job_name must be set (line 145); when
job_name is also set this check passes, and execution proceeds past
validation (to the unrelated unbound-local failure at line 189). -/
theorem job_name_required_spec (a : InitArgs) (hnc : a.num_consumers ≠ none) :
    (a.job_name = none →
      dataServiceDatasetV2Init a = .error (.valueError jobNameRequiredMsg))
  ∧ (a.job_name ≠ none →
      dataServiceDatasetV2Init a = .error .unboundLocalVariantTensor) := by
  constructor
  · intro hj
    simp [dataServiceDatasetV2Init, consumerPairChainCond_false, hnc, hj]
  · intro hj
    have hcond : ¬ (a.num_consumers ≠ none ∧ a.job_name = none) := by
      rintro ⟨_, h2⟩; exact hj h2
    simp [dataServiceDatasetV2Init, consumerPairChainCond_false, hcond]

/-- Witness for C8: num_consumers=2 with job_name absent raises the
job_name-must-be-set error; with job_name="j" the check passes. -/
theorem job_name_required_spec_witness :
    dataServiceDatasetV2Init (InitArgs.mk 1 "parallel_epochs".data "host:5000".data
      (Spec.user 0) "grpc".data none none (some 0) (some 2) none 1 none "AUTO".data)
      = .error (.valueError jobNameRequiredMsg)
  ∧ dataServiceDatasetV2Init (InitArgs.mk 1 "parallel_epochs".data "host:5000".data
      (Spec.user 0) "grpc".data none (some "j".data) (some 0) (some 2) none 1 none
      "AUTO".data) = .error .unboundLocalVariantTensor :=
  ⟨(job_name_required_spec _ (by simp)).1 rfl,
   (job_name_required_spec _ (by simp)).2 (by simp)⟩

/-- C6 (divergence): on a fully valid invocation with resolved compression
"AUTO", the single resolved value is indeed threaded to both calls, and
the registrar inserts the compress map — but the reader construction
raises the unbound-local error before the matching uncompress map is ever
inserted, so the claimed compress/uncompress agreement does not hold in
any actual execution. -/
theorem distribute_compress_uncompress_divergence :
    distributeApply "grpc".data "parallel_epochs".data
      (Service.pair "grpc".data "host:5000".data) none none none none 1 none none
      (some cAUTO) "AUTO".data (Pipeline.source 0) (Spec.user 0) 7
    = .ok (some cAUTO,
        Pipeline.applyDebugOptions (Pipeline.prefetch
          (Pipeline.mapCompress (Pipeline.source 0))),
        .error .unboundLocalVariantTensor) := rfl

/-- C9 (divergence): a valid `_from_dataset_id` call with a job name never
reaches the autoshard-disabling code at lines 837-842: reader construction
raises the unbound-local error first. -/
theorem from_dataset_id_autoshard_divergence :
    fromDatasetIdInternal "grpc".data "parallel_epochs".data
      (Service.pair "grpc".data "host:5000".data) 7 (some (Spec.user 0))
      (some "job".data) none none none 1 none none (some cAUTO) "AUTO".data
    = .error .unboundLocalVariantTensor := rfl

/-- C10 (divergence): the public `register_dataset` always registers with
compression "AUTO" and therefore appends the compress map, but the public
`from_dataset_id` (which indeed passes the "AUTO" default) never inserts
the uncompress map: reader construction raises the unbound-local error. -/
theorem register_public_auto_and_read_crash :
    registerDatasetPublic "grpc".data (Service.pair "grpc".data "host:5000".data)
      (Pipeline.source 0)
      = .ok (Pipeline.applyDebugOptions (Pipeline.prefetch
          (Pipeline.mapCompress (Pipeline.source 0))))
  ∧ (∀ service dataset, registerDatasetPublic "grpc".data service dataset
      = registerDatasetInternal "grpc".data service dataset (some cAUTO))
  ∧ fromDatasetIdPublic "grpc".data "parallel_epochs".data
      (Service.pair "grpc".data "host:5000".data) 7 (some (Spec.user 0))
      (some "job".data) none none none 1 none "AUTO".data
      = .error .unboundLocalVariantTensor :=
  ⟨rfl, fun _ _ => rfl, rfl⟩

lemma digitChar_toNat {m : Nat} (h : m < 10) : (Nat.digitChar m).toNat - 48 = m := by
  interval_cases m <;> decide

lemma digitChar_ne {m : Nat} (h : m < 10) :
    Nat.digitChar m ≠ '/' ∧ Nat.digitChar m ≠ '-' := by
  interval_cases m <;> exact ⟨by decide, by decide⟩

lemma decodeDec_append_digit (xs : List Char) (c : Char) :
    decodeDec (xs ++ [c]) = decodeDec xs * 10 + (c.toNat - 48) := by
  simp [decodeDec, List.foldl_append]

lemma natDecFuel_decode {f n : Nat} (h : n < f) : decodeDec (natDecFuel f n) = n := by
  induction f generalizing n with
  | zero => omega
  | succ f ih =>
    rw [natDecFuel]
    by_cases h10 : n < 10
    · rw [if_pos h10]
      simp only [decodeDec, List.foldl_cons, List.foldl_nil, Nat.zero_mul, Nat.zero_add]
      exact digitChar_toNat h10
    · rw [if_neg h10]
      rw [decodeDec_append_digit]
      have hdiv : n / 10 < f := by
        have := Nat.div_lt_self (show 0 < n by omega) (show 1 < 10 by omega)
        omega
      rw [ih hdiv, digitChar_toNat (Nat.mod_lt n (by omega))]
      omega

lemma natDec_decode (n : Nat) : decodeDec (natDec n) = n :=
  natDecFuel_decode (Nat.lt_succ_self n)

lemma natDec_inj {a b : Nat} (h : natDec a = natDec b) : a = b := by
  have h1 := natDec_decode a
  rw [h, natDec_decode b] at h1
  exact h1.symm

lemma mem_natDecFuel {f n : Nat} {c : Char} (hm : c ∈ natDecFuel f n) :
    c ≠ '/' ∧ c ≠ '-' := by
  induction f generalizing n with
  | zero => simp [natDecFuel] at hm
  | succ f ih =>
    rw [natDecFuel] at hm
    by_cases h10 : n < 10
    · rw [if_pos h10] at hm
      simp only [List.mem_singleton] at hm
      subst hm
      exact digitChar_ne h10
    · rw [if_neg h10] at hm
      rw [List.mem_append] at hm
      rcases hm with hm | hm
      · exact ih hm
      · simp only [List.mem_singleton] at hm
        subst hm
        exact digitChar_ne (Nat.mod_lt n (by omega))

lemma mem_natDec {n : Nat} {c : Char} (hm : c ∈ natDec n) : c ≠ '/' ∧ c ≠ '-' :=
  mem_natDecFuel hm

lemma mem_intDec_slash (i : Int) : '/' ∉ intDec i := by
  rw [intDec]
  split
  · intro hm
    rcases List.mem_cons.mp hm with h | h
    · exact absurd h (by decide)
    · exact (mem_natDec h).1 rfl
  · intro hm
    exact (mem_natDec hm).1 rfl

lemma intDec_inj {a b : Int} (h : intDec a = intDec b) : a = b := by
  by_cases ha : a < 0 <;> by_cases hb : b < 0 <;>
    simp only [intDec, ha, hb, if_pos, if_neg, if_true, if_false] at h
  · simp only [List.cons.injEq, true_and] at h
    have := natDec_inj h
    omega
  · have : Char.ofNat 45 ∈ natDec b.natAbs := by
      rw [← h]
      exact List.mem_cons_self _ _
    exact absurd rfl ((mem_natDec this).2)
  · have : Char.ofNat 45 ∈ natDec a.natAbs := by
      rw [h]
      exact List.mem_cons_self _ _
    exact absurd rfl ((mem_natDec this).2)
  · have := natDec_inj h
    omega

lemma append_cons_cancel {c : Char} :
    ∀ {xs : List Char} {ys r1 r2 : List Char}, c ∉ xs → c ∉ ys →
      xs ++ c :: r1 = ys ++ c :: r2 → xs = ys ∧ r1 = r2 := by
  intro xs
  induction xs with
  | nil =>
    intro ys r1 r2 _ hy h
    cases ys with
    | nil =>
      simp only [List.nil_append, List.cons.injEq, true_and] at h
      exact ⟨rfl, h⟩
    | cons y ys =>
      simp only [List.nil_append, List.cons_append, List.cons.injEq] at h
      obtain ⟨h1, _⟩ := h
      subst h1
      exact absurd (List.mem_cons_self _ _) hy
  | cons x xs ih =>
    intro ys r1 r2 hx hy h
    cases ys with
    | nil =>
      simp only [List.cons_append, List.nil_append, List.cons.injEq] at h
      obtain ⟨h1, _⟩ := h
      subst h1
      exact absurd (List.mem_cons_self _ _) hx
    | cons y ys =>
      simp only [List.cons_append, List.cons.injEq] at h
      obtain ⟨h1, h2⟩ := h
      have hx2 : c ∉ xs := fun hm => hx (List.mem_cons_of_mem _ hm)
      have hy2 : c ∉ ys := fun hm => hy (List.mem_cons_of_mem _ hm)
      obtain ⟨hxy, hr⟩ := ih hx2 hy2 h2
      exact ⟨by rw [h1, hxy], hr⟩

/-- C4: the effective job name derived by `from_dataset_id` prepends the
dataset id to the caller-supplied job name (after the "dataset_id=" label,
separated by slashes), and it is collision-free across dataset ids: two
distinct ids with the same job name never derive equal names, because the
decimal id rendering contains no slash and is injective. -/
theorem derive_job_name_spec (a b : Int) (name : List Char) :
    deriveJobName a name = "dataset_id=".data ++ '/' :: (intDec a ++ '/' :: name)
  ∧ (a ≠ b → deriveJobName a name ≠ deriveJobName b name) := by
  have hshape : ∀ i : Int,
      deriveJobName i name = "dataset_id=".data ++ '/' :: (intDec i ++ '/' :: name) := by
    intro i
    simp [deriveJobName, stringJoin, show "/".data = ['/'] from rfl]
  refine ⟨hshape a, fun hab h => ?_⟩
  rw [hshape a, hshape b] at h
  obtain ⟨_, h3⟩ := append_cons_cancel (by decide) (by decide) h
  obtain ⟨h4, _⟩ := append_cons_cancel (mem_intDec_slash a) (mem_intDec_slash b) h3
  exact hab (intDec_inj h4)

/-- Witness for C4 at the spec's example: dataset ids 7 and 8 with job
name "train" derive distinct effective names. -/
theorem derive_job_name_spec_witness :
    deriveJobName 7 "train".data
      = "dataset_id=".data ++ '/' :: (intDec 7 ++ '/' :: "train".data)
  ∧ deriveJobName 7 "train".data ≠ deriveJobName 8 "train".data :=
  ⟨(derive_job_name_spec 7 8 "train".data).1,
   (derive_job_name_spec 7 8 "train".data).2 (by decide)⟩
